import Mathlib

/-!
Shallow embedding of the `dataviewer` package (files `dataviewer/core.py`,
`dataviewer/cli.py`, `dataviewer/llm.py`) and proofs about it.

Strings are modelled by Lean `String`, Python character lists by `List Char`.
Python `None`-able fields are modelled by `Option`. Machine-level details
(threads, the spinner animation, subprocess supervision) are outside the
embedded fragment; the claims below do not touch them.
-/

namespace Dataviewer

/-! ## Python string primitives used by `core.py` -/

/-- Characters removed by Python `str.strip()` with no argument. -/
def pyIsSpace (c : Char) : Bool :=
  c = ' ' || c = '\t' || c = '\n' || c = '\r' || c = '\x0b' || c = '\x0c'

/-- Python regex `\w` on the ASCII range (the fence language tag, e.g. `python`). -/
def isWordChar (c : Char) : Bool :=
  c.isAlphanum || c = '_'

/-- `str.strip()` on a character list: drop leading and trailing whitespace. -/
def pyStripL (cs : List Char) : List Char :=
  ((cs.dropWhile pyIsSpace).reverse.dropWhile pyIsSpace).reverse

/-- `str.strip()` on strings. -/
def pyStrip (s : String) : String :=
  ⟨pyStripL s.data⟩

/-- Matcher for the regex `^\x60\x60\x60\w*\n` (anchored at the start, no
MULTILINE flag): three backticks, a greedy run of word characters, then a
newline.  Returns the remainder after the match, or `none` when the regex
does not match.  Greedy `\w*` never backtracks usefully here because the
following pattern character `\n` is not a word character. -/
def matchFenceOpen : List Char → Option (List Char)
  | '`' :: '`' :: '`' :: rest =>
    match rest.dropWhile isWordChar with
    | '\n' :: tail => some tail
    | _ => none
  | _ => none

/-- `re.sub` of the opening-fence regex by the empty string (at most one match,
anchored by `^`). -/
def dropFenceOpen (cs : List Char) : List Char :=
  match matchFenceOpen cs with
  | some tail => tail
  | none => cs

/-- `re.sub` of the regex `\n\x60\x60\x60$` by the empty string.  Python `$`
(without MULTILINE) matches at the end of the string or just before a final
newline, so both positions are handled. -/
def dropFenceClose (cs : List Char) : List Char :=
  match cs.reverse with
  | '`' :: '`' :: '`' :: '\n' :: rest => rest.reverse
  | '\n' :: '`' :: '`' :: '`' :: '\n' :: rest => ('\n' :: rest).reverse
  | _ => cs

/-- `DataViewer._clean_code` on character lists: strip whitespace, then remove
an opening fence line, then remove a closing fence line. -/
def cleanCodeL (cs : List Char) : List Char :=
  dropFenceClose (dropFenceOpen (pyStripL cs))

/-- `DataViewer._clean_code`. -/
def cleanCode (code : String) : String :=
  ⟨cleanCodeL code.data⟩

/-- Python `str.replace('/', '_')` (single-character pattern, hence a
character-by-character scan). -/
def replaceSlashL : List Char → List Char
  | [] => []
  | c :: cs => (if c = '/' then '_' else c) :: replaceSlashL cs

/-- `DataViewer._get_viewer_path` as a function of the stored dataset name and
the requested split. -/
def getViewerPath (dataset_name split : String) : String :=
  "view_" ++ (⟨replaceSlashL dataset_name.data⟩ : String) ++ "_" ++ split ++ ".py"

/-! ## Data model: `llm.py` and the `DataViewer` state -/

/-- Python exception classes raised in the embedded fragment. -/
inductive PyError where
  | valueError (msg : String)
  | keyError (key : String)
  | indexError (msg : String)
deriving DecidableEq

/-- The two model-client backends of `llm.py` (`Claude`, `GPT4`); the stored
state is the API key used to construct the vendor client. -/
inductive LLM where
  | claude (api_key : String)
  | gpt4 (api_key : String)
deriving DecidableEq

/-- A Python value stored in one feature of a dataset sample.  `float` values
and the `tuple`/`list` distinction are not represented (no claim involves
them); `other` carries the type name used by `type(v).__name__`. -/
inductive Value where
  | str (s : String)
  | int (n : Int)
  | bool (b : Bool)
  | list (elems : List Value)
  | dict (entries : List (String × Value))
  | other (tyName : String)

/-- The Python type name of a value. -/
def Value.typeName : Value → String
  | .str _ => "str"
  | .int _ => "int"
  | .bool _ => "bool"
  | .list _ => "list"
  | .dict _ => "dict"
  | .other t => t

/-- `str(type(v))`, used for the feature summary in `generate_viewer`. -/
def typeStr (v : Value) : String :=
  "<class \x27" ++ v.typeName ++ "\x27>"

/-- The inner `format_value` helper of `generate_viewer`: scalars via `str`,
sequences as an element count, mappings as a key list, anything else as a
type tag. -/
def formatValue : Value → String
  | .str s => s
  | .int n => toString n
  | .bool b => if b then "True" else "False"
  | .list elems => "[list with " ++ toString elems.length ++ " elements]"
  | .dict entries =>
      "\x7bdict with keys: " ++ String.intercalate ", " (entries.map Prod.fst) ++ "\x7d"
  | .other t => "[" ++ t ++ "]"

/-- One dataset row: a mapping from feature name to value. -/
abbrev Inst := List (String × Value)

/-- A loaded dataset: named splits, each a list of rows. -/
abbrev Dataset := List (String × List Inst)

/-- `self.data[split]`: raises `KeyError` (modelled as `none`) when absent. -/
def lookupSplit : Dataset → String → Option (List Inst)
  | [], _ => none
  | (k, v) :: rest, s => if k = s then some v else lookupSplit rest s

/-- The `DataViewer` object state (`core.py`).  `dataset_name` is `""` before
a dataset is loaded (Python: `None`, never read in that state on the paths
the claims exercise); `progress_callback` records whether a callback was
registered via `set_progress_callback`. -/
structure DataViewer where
  data : Option Dataset := none
  dataset_name : String := ""
  llm : Option LLM := none
  dataset_readme : Option String := none
  progress_callback : Bool := false

/-- The two credential environment variables read by `from_environment`. -/
structure Env where
  anthropic_api_key : Option String
  openai_api_key : Option String

/-- Python truthiness of `os.getenv(...)`: unset (`None`) and the empty
string are both falsy. -/
def pyTruthy : Option String → Bool
  | none => false
  | some s => s != ""

/-- `DataViewer.from_environment`: backend selection from the environment. -/
def fromEnvironment (env : Env) : Except PyError DataViewer :=
  if pyTruthy env.anthropic_api_key then
    .ok { llm := some (.claude (env.anthropic_api_key.getD "")) }
  else if pyTruthy env.openai_api_key then
    .ok { llm := some (.gpt4 (env.openai_api_key.getD "")) }
  else
    .error (.valueError
      "No API keys found. Please set either ANTHROPIC_API_KEY or OPENAI_API_KEY environment variable.")

/-! ## `json.dumps(..., indent=2)` on string-valued dicts

Both dicts serialised by `generate_viewer` (`features` and
`example_instance`) map strings to strings, so only that case is embedded.
`ensure_ascii=True` (the default) escapes non-ASCII code points. -/

/-- Lowercase hex digit. -/
def hexDigit (n : Nat) : Char :=
  if n < 10 then Char.ofNat ('0'.toNat + n) else Char.ofNat ('a'.toNat + (n - 10))

/-- Four lowercase hex digits. -/
def hex4 (n : Nat) : String :=
  ⟨[hexDigit (n / 4096 % 16), hexDigit (n / 256 % 16), hexDigit (n / 16 % 16),
    hexDigit (n % 16)]⟩

/-- JSON escaping of one character, `ensure_ascii` style. -/
def jsonEscapeChar (c : Char) : String :=
  if c = '"' then "\\\""
  else if c = '\\' then "\\\\"
  else if c = '\n' then "\\n"
  else if c = '\t' then "\\t"
  else if c = '\r' then "\\r"
  else if c = '\x08' then "\\b"
  else if c = '\x0c' then "\\f"
  else if c.toNat < 0x20 then "\\u" ++ hex4 c.toNat
  else if c.toNat < 0x7f then ⟨[c]⟩
  else if c.toNat < 0x10000 then "\\u" ++ hex4 c.toNat
  else
    "\\u" ++ hex4 (0xd800 + (c.toNat - 0x10000) / 0x400) ++
    "\\u" ++ hex4 (0xdc00 + (c.toNat - 0x10000) % 0x400)

/-- JSON escaping of a string. -/
def jsonEscape (s : String) : String :=
  String.join (s.data.map jsonEscapeChar)

/-- `json.dumps(d, indent=2)` for a string-to-string dict in insertion
order. -/
def jsonDumpsStrDict : List (String × String) → String
  | [] => "\x7b\x7d"
  | kvs =>
    "\x7b\n  " ++
    String.intercalate ",\n  "
      (kvs.map (fun kv => "\"" ++ jsonEscape kv.1 ++ "\": \"" ++ jsonEscape kv.2 ++ "\"")) ++
    "\n\x7d"

/-! ## The prompt and the viewer template (literal text from `core.py`)

The chunks below are the exact literal text of `base_prompt`,
`system_message` and `viewer_template` in `generate_viewer`, cut at the
`str.format` holes (with `format`-doubled braces resolved to literal
braces).  The template text is reproduced byte-for-byte, including the
mis-encoded button labels present in the source file. -/

def basePromptChunk0 : String :=
  "Generate a Streamlit Python script to visualize instances from a dataset.\n        The script must define a function called \x27display_instance\x27 that takes a single parameter \x27instance\x27 \n        and visualizes it appropriately.\n        \n        Dataset Information:\n        "

def basePromptChunk1 : String :=
  "\n        \n        The instance has these features and types: "

def basePromptChunk2 : String :=
  "\n        \n        Here\x27s an example instance from the dataset:\n        "

def basePromptChunk3 : String :=
  "\n        \n        Requirements:\n        - Create a function called \x27display_instance(instance)\x27 that handles the visualization\n        - Display all fields appropriately (text, images, audio, etc.)\n        - Make it visually appealing with proper headers and sections\n        - Handle all data types properly\n        - Use st.columns where appropriate for layout\n        - Don\x27t include any navigation controls (they\x27re handled elsewhere)\n        - Do not include markdown code block markers (\x60\x60\x60)\n        - Consider the dataset\x27s purpose and content when designing the visualization\n        - Use the example instance as a guide for formatting and layout\n        "

def basePromptChunk4 : String :=
  "\n        \n        The function will be called with the current instance at the end of the script.\n        Only respond with the raw Python code, no explanations."

def systemMessageText : String :=
  "You are a Python expert specializing in Streamlit and data visualization.\n        Create visualizations that are appropriate for the dataset\x27s purpose and content.\n        Provide only raw Python code without markdown formatting."

def viewerTemplateChunk0 : String :=
  "\nimport streamlit as st\nimport random\nfrom datasets import load_dataset\n\n# Cache the dataset loading\n@st.cache_resource\ndef get_dataset():\n    return load_dataset(\""

def viewerTemplateChunk1 : String :=
  "\")\n\n# Get the dataset\ndataset = get_dataset()\nsplit = \""

def viewerTemplateChunk2 : String :=
  "\"\ndata = dataset[split]\n\n# Session state for index tracking\nif \x27current_index\x27 not in st.session_state:\n    st.session_state.current_index = 0\n\n# Navigation controls\nst.title(\"Dataset Viewer: "

def viewerTemplateChunk3 : String :=
  "\")\n\ncol1, col2, col3, col4 = st.columns([1, 1, 1, 2])\n\nwith col1:\n    if st.button(\"‚¨ÖÔ∏è Previous\"):\n        st.session_state.current_index = (st.session_state.current_index - 1) % len(data)\n\nwith col2:\n    if st.button(\"Random üé≤\"):\n        st.session_state.current_index = random.randint(0, len(data) - 1)\n\nwith col3:\n    if st.button(\"Next ‚û°Ô∏è\"):\n        st.session_state.current_index = (st.session_state.current_index + 1) % len(data)\n\nwith col4:\n    st.session_state.current_index = st.number_input(\n        \"Go to index\", \n        min_value=0, \n        max_value=len(data) - 1, \n        value=st.session_state.current_index\n    )\n\nst.write(f\"Showing instance \x7bst.session_state.current_index\x7d of \x7blen(data) - 1\x7d\")\n\n# Get current instance\ninstance = data[st.session_state.current_index]\n\n"

def viewerTemplateChunk4 : String :=
  "\n\n# Always call display_instance with current instance\ndisplay_instance(instance)\n"

/-- `readme_section` in `generate_viewer` (Python truthiness: a `None` or
empty README falls back to the no-README text). -/
def mkReadmeSection (readme : Option String) : String :=
  if pyTruthy readme then "Dataset README:\n" ++ readme.getD ""
  else "No README available for this dataset."

/-- The `extra_requirements` format argument. -/
def extraRequirementsSection (extra_prompt : String) : String :=
  if extra_prompt != "" then "\nAdditional requirements:\n" ++ extra_prompt else ""

/-- `base_prompt.format(...)`. -/
def mkPrompt (readme : Option String) (features example_instance : List (String × String))
    (extra_prompt : String) : String :=
  basePromptChunk0 ++ mkReadmeSection readme ++
  basePromptChunk1 ++ jsonDumpsStrDict features ++
  basePromptChunk2 ++ jsonDumpsStrDict example_instance ++
  basePromptChunk3 ++ extraRequirementsSection extra_prompt ++
  basePromptChunk4

/-- `viewer_template.format(dataset_name=..., split=..., viewer_code=...)`. -/
def viewerTemplate (dataset_name split viewer_code : String) : String :=
  viewerTemplateChunk0 ++ dataset_name ++
  viewerTemplateChunk1 ++ split ++
  viewerTemplateChunk2 ++ dataset_name ++
  viewerTemplateChunk3 ++ viewer_code ++
  viewerTemplateChunk4

/-! ## Filesystem model and the `generate_viewer` operation -/

/-- The filesystem fragment touched by the program: path-content pairs;
a later write shadows earlier entries. -/
abbrev FS := List (String × String)

/-- Content at a path, if the file exists. -/
def fsGet : FS → String → Option String
  | [], _ => none
  | (p, c) :: rest, q => if p = q then some c else fsGet rest q

/-- `os.path.exists`. -/
def fsExists (fs : FS) (path : String) : Bool :=
  (fsGet fs path).isSome

/-- `open(path, "w").write(content)`. -/
def fsWrite (fs : FS) (path content : String) : FS :=
  (path, content) :: fs

/-- Observable effects of one `generate_viewer` call, in program order. -/
inductive Event where
  | checkExists (path : String) (result : Bool)
  | llmCall (prompt system_message : String)
  | callback
  | write (path content : String)
deriving DecidableEq

/-- Result of one `generate_viewer` call: the effect trace, the returned path
or the raised exception, the object state after the call and the filesystem
after the call. -/
structure GenOutput where
  trace : List Event
  result : Except PyError String
  dv : DataViewer
  fs : FS

/-- `features = {k: str(type(v)) for k, v in sample.items()}`. -/
def genFeatures (sample : Inst) : List (String × String) :=
  sample.map (fun kv => (kv.1, typeStr kv.2))

/-- `example_instance = {k: format_value(v) for k, v in sample.items()}`. -/
def genExampleInstance (sample : Inst) : List (String × String) :=
  sample.map (fun kv => (kv.1, formatValue kv.2))

/-- The prompt `generate_viewer` sends for a given object state, sample and
extra requirements. -/
def genPrompt (dv : DataViewer) (sample : Inst) (extra_prompt : String) : String :=
  mkPrompt dv.dataset_readme (genFeatures sample) (genExampleInstance sample) extra_prompt

/-- The file content `generate_viewer` writes on a cache miss: the template
filled with the cleaned model response. -/
def genContent (dv : DataViewer) (llmGen : String → String → String) (sample : Inst)
    (split extra_prompt : String) : String :=
  viewerTemplate dv.dataset_name split
    (cleanCode (llmGen (genPrompt dv sample extra_prompt) systemMessageText))

/-- `DataViewer.generate_viewer`.  The model client's network behaviour is
the oracle `llmGen` (prompt, system message ↦ response text); the method
itself assigns no attribute of `self`, so the returned object state equals
the input state on every path. -/
def generateViewer (dv : DataViewer) (llmGen : String → String → String)
    (fs : FS) (split extra_prompt : String) (force : Bool) : GenOutput :=
  match dv.data with
  | none => ⟨[], .error (.valueError "No dataset loaded"), dv, fs⟩
  | some data =>
    match dv.llm with
    | none => ⟨[], .error (.valueError "No language model configured"), dv, fs⟩
    | some _ =>
      let viewer_path := getViewerPath dv.dataset_name split
      let ex := fsExists fs viewer_path
      if ex && !force then
        ⟨[.checkExists viewer_path ex], .ok viewer_path, dv, fs⟩
      else
        match lookupSplit data split with
        | none => ⟨[.checkExists viewer_path ex], .error (.keyError split), dv, fs⟩
        | some [] =>
          ⟨[.checkExists viewer_path ex], .error (.indexError "list index out of range"),
           dv, fs⟩
        | some (sample :: _) =>
          let prompt := genPrompt dv sample extra_prompt
          let content := genContent dv llmGen sample split extra_prompt
          ⟨[.checkExists viewer_path ex, .llmCall prompt systemMessageText] ++
             (if dv.progress_callback then [Event.callback] else []) ++
             [.write viewer_path content],
           .ok viewer_path, dv, fsWrite fs viewer_path content⟩

/-! ## `load_dataset` and the documentation fetch -/

/-- The README fetch inside `load_dataset`: `hubAvailable` models the guarded
`huggingface_hub` import; `hubDownload repo filename` models
`hf_hub_download` (result: the downloaded file's local path); `readText`
models `Path(p).read_text()`.  Every failure ends in `none`. -/
def fetchReadme (hubAvailable : Bool) (hubDownload : String → String → Except Unit String)
    (readText : String → Except Unit String) (dataset_url : String) : Option String :=
  if hubAvailable then
    let readme_path : Option String :=
      match hubDownload dataset_url "README.md" with
      | .ok p => some p
      | .error _ =>
        match hubDownload dataset_url "dataset_card.md" with
        | .ok p => some p
        | .error _ => none
    match readme_path with
    | some p =>
      if p != "" then
        match readText p with
        | .ok text => some text
        | .error _ => none
      else none
    | none => none
  else none

/-- `DataViewer.load_dataset`.  `loader` is the external `datasets`
loader.  (Python assigns `self.dataset_name` before the loader runs; on
loader failure the exception propagates, a path no claim exercises, so the
failure case simply re-raises.) -/
def loadDatasetOp (dv : DataViewer) (loader : String → Except PyError Dataset)
    (hubAvailable : Bool) (hubDownload : String → String → Except Unit String)
    (readText : String → Except Unit String) (dataset_url : String) :
    Except PyError DataViewer :=
  match loader dataset_url with
  | .error e => .error e
  | .ok ds =>
    .ok { dv with
            dataset_name := dataset_url
            data := some ds
            dataset_readme := fetchReadme hubAvailable hubDownload readText dataset_url }

/-! ## The command-line flow (`cli.py` `main`) -/

/-- Coarse events of one CLI run. -/
inductive CliEvent where
  | loadData (dataset_url : String)
  | generate
  | launch (path : String)
deriving DecidableEq

/-- `click.ClickException` message: `str(e)` for `ValueError`, otherwise
`f"Error: \x7bstr(e)\x7d"`. -/
def clickMessage : PyError → String
  | .valueError m => m
  | .keyError k => "Error: \x27" ++ k ++ "\x27"
  | .indexError m => "Error: " ++ m

/-- `cli.py` `main`: construct from the environment, load the dataset,
generate (or reuse) the viewer, then `run_viewer` (which calls
`generate_viewer` once more before launching the subprocess).  The spinner
thread is cosmetic (spec §5) and is not modelled. -/
def cliMain (env : Env) (loader : String → Except PyError Dataset)
    (hubAvailable : Bool) (hubDownload : String → String → Except Unit String)
    (readText : String → Except Unit String)
    (llmGen : String → String → String) (fs : FS)
    (dataset_url split prompt : String) (force : Bool) :
    List CliEvent × Except String Unit :=
  match fromEnvironment env with
  | .error e => ([], .error (clickMessage e))
  | .ok viewer =>
    let viewer := { viewer with progress_callback := true }
    match loadDatasetOp viewer loader hubAvailable hubDownload readText dataset_url with
    | .error e => ([.loadData dataset_url], .error (clickMessage e))
    | .ok viewer =>
      let viewer_path := getViewerPath viewer.dataset_name split
      if force || !(fsExists fs viewer_path) then
        let g := generateViewer viewer llmGen fs split prompt force
        match g.result with
        | .error e => ([.loadData dataset_url, .generate], .error (clickMessage e))
        | .ok _ =>
          let g2 := generateViewer g.dv llmGen g.fs split prompt force
          match g2.result with
          | .error e => ([.loadData dataset_url, .generate], .error (clickMessage e))
          | .ok p => ([.loadData dataset_url, .generate, .launch p], .ok ())
      else
        let g2 := generateViewer viewer llmGen fs split prompt force
        match g2.result with
        | .error e => ([.loadData dataset_url], .error (clickMessage e))
        | .ok p => ([.loadData dataset_url, .launch p], .ok ())

/-! ## Navigation logic of the generated viewer template

These definitions embed the Python expressions inside `viewer_template`
(they run in the generated script).  `%` is Python integer modulo, which
agrees with `Int`'s `%` (`Int.emod`) for a positive modulus. -/

/-- The Previous button: `(current_index - 1) % len(data)`. -/
def viewerPrev (current_index n : Int) : Int :=
  (current_index - 1) % n

/-- The Next button: `(current_index + 1) % len(data)`. -/
def viewerNext (current_index n : Int) : Int :=
  (current_index + 1) % n

/-- Arguments passed to `random.randint` by the Random button:
`(0, len(data) - 1)`. -/
def viewerRandomArgs (n : Int) : Int × Int :=
  (0, n - 1)

/-- `random.randint(lo, hi)` draws uniformly over the inclusive range
`[lo, hi]` (external library semantics): the set of possible results. -/
def randintCanReturn (lo hi v : Int) : Prop :=
  lo ≤ v ∧ v ≤ hi

/-- `st.number_input(min_value, max_value, value)`: the widget keeps the
value inside the closed range (external widget semantics, modelled as a
clamp). -/
def numberInputClamp (min_value max_value value : Int) : Int :=
  max min_value (min max_value value)

/-- The Go-to-index control of the template: `min_value=0`,
`max_value=len(data) - 1`. -/
def viewerGoto (n value : Int) : Int :=
  numberInputClamp 0 (n - 1) value

/-! ## Cleanliness predicate for `_clean_code` -/

/-- Whether the closing-fence regex `\n\x60\x60\x60$` matches (at the end of
the string, or just before a final newline). -/
def matchFenceClose (cs : List Char) : Bool :=
  match cs.reverse with
  | '`' :: '`' :: '`' :: '\n' :: _ => true
  | '\n' :: '`' :: '`' :: '`' :: '\n' :: _ => true
  | _ => false

/-- Already-clean code: no leading or trailing whitespace, no opening fence
line at the start, no closing fence line at the end. -/
def IsCleanCode (s : String) : Prop :=
  s.data.dropWhile pyIsSpace = s.data
  ∧ s.data.reverse.dropWhile pyIsSpace = s.data.reverse
  ∧ matchFenceOpen s.data = none
  ∧ matchFenceClose s.data = false

/-! ## Concrete fixtures used to instantiate the theorems -/

/-- A loaded viewer state over a one-row `train` split. -/
def sampleDV : DataViewer :=
  { data := some [("train", [[("a", Value.int 1)]])]
    dataset_name := "ds"
    llm := some (.claude "k")
    dataset_readme := none
    progress_callback := false }

/-- A filesystem already holding the derived artifact for `sampleDV` and
split `train`. -/
def sampleFS : FS :=
  [("view_ds_train.py", "old")]

/-- A model-response oracle returning fenced code. -/
def sampleLlmGen : String → String → String :=
  fun _ _ => "\x60\x60\x60python\nst.write(1)\n\x60\x60\x60"

/-! ## Basic lemmas about the string primitives -/

theorem replaceSlashL_eq_map (cs : List Char) :
    replaceSlashL cs = cs.map (fun c => if c = '/' then '_' else c) := by
  induction cs with
  | nil => rfl
  | cons c cs ih => simp [replaceSlashL, ih]

theorem pyStripL_no_ws (cs : List Char)
    (h₁ : cs.dropWhile pyIsSpace = cs)
    (h₂ : cs.reverse.dropWhile pyIsSpace = cs.reverse) :
    pyStripL cs = cs := by
  unfold pyStripL
  rw [h₁, h₂, List.reverse_reverse]

theorem dropWhile_append_of_all {p : Char → Bool} (l₁ l₂ : List Char)
    (hall : ∀ c ∈ l₁, p c = true) :
    (l₁ ++ l₂).dropWhile p = l₂.dropWhile p := by
  induction l₁ with
  | nil => simp
  | cons c cs ih =>
    have hc : p c = true := hall c (by simp)
    simp only [List.cons_append, List.dropWhile_cons, hc, if_true]
    exact ih (fun d hd => hall d (by simp [hd]))

instance instDecidableIsCleanCode (s : String) : Decidable (IsCleanCode s) := by
  unfold IsCleanCode
  infer_instance

theorem stringMk_data (s : String) : (⟨s.data⟩ : String) = s := by
  cases s
  rfl

theorem dropFenceOpen_noop (cs : List Char) (h : matchFenceOpen cs = none) :
    dropFenceOpen cs = cs := by
  unfold dropFenceOpen
  rw [h]

theorem dropFenceClose_noop (cs : List Char) (h : matchFenceClose cs = false) :
    dropFenceClose cs = cs := by
  unfold dropFenceClose
  split
  · exfalso
    unfold matchFenceClose at h
    simp_all
  · exfalso
    unfold matchFenceClose at h
    simp_all
  · rfl

theorem matchFenceOpen_wrapped (lang rest : List Char)
    (hlang : ∀ c ∈ lang, isWordChar c = true) :
    matchFenceOpen ('`' :: '`' :: '`' :: (lang ++ '\n' :: rest)) = some rest := by
  have hw : isWordChar '\n' = false := by decide
  unfold matchFenceOpen
  simp [dropWhile_append_of_all lang ('\n' :: rest) hlang, List.dropWhile_cons, hw]

theorem cleanCodeL_wrapped (lang code : List Char)
    (hlang : ∀ c ∈ lang, isWordChar c = true) :
    cleanCodeL ('`' :: '`' :: '`' :: (lang ++ '\n' :: (code ++ ['\n', '`', '`', '`'])))
      = code := by
  have hsp : pyIsSpace '`' = false := by decide
  unfold cleanCodeL
  have hstrip : pyStripL ('`' :: '`' :: '`' :: (lang ++ '\n' :: (code ++ ['\n', '`', '`', '`'])))
      = '`' :: '`' :: '`' :: (lang ++ '\n' :: (code ++ ['\n', '`', '`', '`'])) := by
    apply pyStripL_no_ws
    · rw [List.dropWhile_cons, hsp]
      simp
    · have hrev : ('`' :: '`' :: '`' :: (lang ++ '\n' :: (code ++ ['\n', '`', '`', '`']))).reverse
          = '`' :: '`' :: '`' :: '\n' :: (code.reverse ++ '\n' :: (lang.reverse ++ ['`', '`', '`'])) := by
        simp
      rw [hrev, List.dropWhile_cons, hsp]
      simp
  rw [hstrip]
  unfold dropFenceOpen
  rw [matchFenceOpen_wrapped lang _ hlang]
  unfold dropFenceClose
  have hrev2 : (code ++ ['\n', '`', '`', '`']).reverse = '`' :: '`' :: '`' :: '\n' :: code.reverse := by
    simp
  rw [hrev2]
  simp

/-- C2: `_clean_code` is a no-op on already-clean code, and unwraps code
wrapped in a leading fenced-code delimiter line (three backticks plus a
language tag of word characters, then a newline) and a trailing delimiter
line, yielding exactly the unwrapped code. -/
theorem clean_code_idempotent_props (s lang code : String)
    (hs : IsCleanCode s) (hlang : ∀ c ∈ lang.data, isWordChar c = true) :
    cleanCode s = s
    ∧ cleanCode (("\x60\x60\x60" ++ lang ++ "\n") ++ (code ++ "\n\x60\x60\x60")) = code := by
  constructor
  · obtain ⟨h1, h2, h3, h4⟩ := hs
    unfold cleanCode cleanCodeL
    rw [pyStripL_no_ws _ h1 h2, dropFenceOpen_noop _ h3, dropFenceClose_noop _ h4,
      stringMk_data]
  · unfold cleanCode
    have e1 : ("\x60\x60\x60" : String).data = ['`', '`', '`'] := rfl
    have e2 : ("\n" : String).data = ['\n'] := rfl
    have e3 : ("\n\x60\x60\x60" : String).data = ['\n', '`', '`', '`'] := rfl
    have hdata : (("\x60\x60\x60" ++ lang ++ "\n") ++ (code ++ "\n\x60\x60\x60")).data
        = '`' :: '`' :: '`' :: (lang.data ++ '\n' :: (code.data ++ ['\n', '`', '`', '`'])) := by
      simp [String.data_append, e1, e2, e3]
    rw [hdata, cleanCodeL_wrapped _ _ hlang, stringMk_data]

/-- Witness for C2 at concrete inputs. -/
theorem clean_code_idempotent_props_witness :
    IsCleanCode "x = 1"
    ∧ (∀ c ∈ ("python" : String).data, isWordChar c = true)
    ∧ (cleanCode "x = 1" = "x = 1"
       ∧ cleanCode (("\x60\x60\x60" ++ "python" ++ "\n") ++ ("print(2)" ++ "\n\x60\x60\x60"))
           = "print(2)") :=
  ⟨by decide, by decide,
   clean_code_idempotent_props "x = 1" "python" "print(2)" (by decide) (by decide)⟩

/-- C3: the derived viewer artifact path is a pure function of
(identifier, split): it equals `view_<identifier>_<split>.py` with every `/`
of the identifier replaced by `_`, and it agrees across any two viewer
states carrying the same dataset name. -/
theorem viewer_path_formula (identifier split : String) (dv : DataViewer)
    (hname : dv.dataset_name = identifier) :
    getViewerPath dv.dataset_name split
      = "view_" ++ (⟨identifier.data.map (fun c => if c = '/' then '_' else c)⟩ : String)
          ++ "_" ++ split ++ ".py"
    ∧ ∀ dv' : DataViewer, dv'.dataset_name = identifier →
        getViewerPath dv'.dataset_name split = getViewerPath dv.dataset_name split := by
  constructor
  · rw [hname]
    unfold getViewerPath
    rw [replaceSlashL_eq_map]
  · intro dv' h'
    rw [h', hname]

/-- Witness for C3 at a concrete slash-carrying identifier. -/
theorem viewer_path_formula_witness :
    ({ dataset_name := "princeton-nlp/SWE-bench" : DataViewer }).dataset_name
        = "princeton-nlp/SWE-bench"
    ∧ getViewerPath ({ dataset_name := "princeton-nlp/SWE-bench" : DataViewer }).dataset_name "train"
        = "view_" ++ (⟨("princeton-nlp/SWE-bench" : String).data.map
            (fun c => if c = '/' then '_' else c)⟩ : String) ++ "_" ++ "train" ++ ".py" :=
  ⟨rfl,
   (viewer_path_formula "princeton-nlp/SWE-bench" "train"
      { dataset_name := "princeton-nlp/SWE-bench" } rfl).1⟩

/-- C5: navigation arithmetic of the generated viewer for a split of length
`N > 0`: Next from `N-1` wraps to `0`, Previous from `0` wraps to `N-1`,
the Random button draws from `randint(0, N-1)` (uniform over `[0, N-1]`),
and the direct-index control is constrained to `[0, N-1]`. -/
theorem viewer_navigation (N : Int) (hN : 0 < N) :
    viewerNext (N - 1) N = 0
    ∧ viewerPrev 0 N = N - 1
    ∧ viewerRandomArgs N = (0, N - 1)
    ∧ (∀ v : Int, randintCanReturn (viewerRandomArgs N).1 (viewerRandomArgs N).2 v ↔
        0 ≤ v ∧ v ≤ N - 1)
    ∧ ∀ v : Int, 0 ≤ viewerGoto N v ∧ viewerGoto N v ≤ N - 1 := by
  refine ⟨?_, ?_, rfl, fun v => Iff.rfl, fun v => ⟨?_, ?_⟩⟩
  · unfold viewerNext
    rw [show (N - 1 + 1 : Int) = N by ring]
    exact Int.emod_self
  · unfold viewerPrev
    have h4 : (N - 1) % N = (0 - 1) % N := by
      rw [show (N - 1 : Int) = (0 - 1) + N * 1 by ring, Int.add_mul_emod_self_left]
    rw [← h4]
    exact Int.emod_eq_of_lt (by omega) (by omega)
  · exact le_max_left 0 _
  · exact max_le (by omega) (min_le_left _ _)

/-- Witness for C5 at `N = 3`. -/
theorem viewer_navigation_witness :
    (0 : Int) < 3
    ∧ viewerNext (3 - 1) 3 = 0
    ∧ viewerPrev 0 3 = 3 - 1
    ∧ (0 ≤ viewerGoto 3 7 ∧ viewerGoto 3 7 ≤ 3 - 1) :=
  ⟨by decide, (viewer_navigation 3 (by decide)).1, (viewer_navigation 3 (by decide)).2.1,
   (viewer_navigation 3 (by decide)).2.2.2.2 7⟩

/-- C1: with a loaded dataset and a configured model client, if the artifact
already exists at the derived path and `force` is false, `generate_viewer`
returns the existing path and never calls the model client (the cache test
is file existence only). -/
theorem generate_viewer_cache_hit (dv : DataViewer) (llmGen : String → String → String)
    (fs : FS) (split extra_prompt : String) (d : Dataset) (l : LLM)
    (hdata : dv.data = some d) (hllm : dv.llm = some l)
    (hex : fsExists fs (getViewerPath dv.dataset_name split) = true) :
    (generateViewer dv llmGen fs split extra_prompt false).result
        = .ok (getViewerPath dv.dataset_name split)
    ∧ ∀ p m, Event.llmCall p m ∉ (generateViewer dv llmGen fs split extra_prompt false).trace := by
  unfold generateViewer
  rw [hdata, hllm]
  simp [hex]

/-- Witness for C1 at concrete state, filesystem and oracle. -/
theorem generate_viewer_cache_hit_witness :
    sampleDV.data = some [("train", [[("a", Value.int 1)]])]
    ∧ sampleDV.llm = some (.claude "k")
    ∧ fsExists sampleFS (getViewerPath sampleDV.dataset_name "train") = true
    ∧ (generateViewer sampleDV sampleLlmGen sampleFS "train" "" false).result
        = .ok (getViewerPath sampleDV.dataset_name "train")
    ∧ Event.llmCall "p" "m" ∉ (generateViewer sampleDV sampleLlmGen sampleFS "train" "" false).trace :=
  ⟨rfl, rfl, by decide,
   (generate_viewer_cache_hit sampleDV sampleLlmGen sampleFS "train" "" _ _ rfl rfl (by decide)).1,
   (generate_viewer_cache_hit sampleDV sampleLlmGen sampleFS "train" "" _ _ rfl rfl (by decide)).2 "p" "m"⟩

/-- C4: with a loaded dataset and a configured model client, `force = true`
invokes the model client even though the artifact file exists, and the file
at the derived path is overwritten with the newly filled template. -/
theorem generate_viewer_force (dv : DataViewer) (llmGen : String → String → String)
    (fs : FS) (split extra_prompt : String) (d : Dataset) (l : LLM)
    (sample : Inst) (rest : List Inst)
    (hdata : dv.data = some d) (hllm : dv.llm = some l)
    (hsplit : lookupSplit d split = some (sample :: rest))
    (hex : fsExists fs (getViewerPath dv.dataset_name split) = true) :
    (generateViewer dv llmGen fs split extra_prompt true).result
        = .ok (getViewerPath dv.dataset_name split)
    ∧ Event.llmCall (genPrompt dv sample extra_prompt) systemMessageText
        ∈ (generateViewer dv llmGen fs split extra_prompt true).trace
    ∧ (generateViewer dv llmGen fs split extra_prompt true).fs
        = fsWrite fs (getViewerPath dv.dataset_name split)
            (genContent dv llmGen sample split extra_prompt)
    ∧ fsGet (generateViewer dv llmGen fs split extra_prompt true).fs
          (getViewerPath dv.dataset_name split)
        = some (genContent dv llmGen sample split extra_prompt) := by
  unfold generateViewer
  rw [hdata, hllm]
  simp [hsplit, fsGet, fsWrite]

/-- Witness for C4 at concrete state, filesystem and oracle. -/
theorem generate_viewer_force_witness :
    sampleDV.data = some [("train", [[("a", Value.int 1)]])]
    ∧ sampleDV.llm = some (.claude "k")
    ∧ lookupSplit [("train", [[("a", Value.int 1)]])] "train" = some [[("a", Value.int 1)]]
    ∧ fsExists sampleFS (getViewerPath sampleDV.dataset_name "train") = true
    ∧ (generateViewer sampleDV sampleLlmGen sampleFS "train" "" true).result
        = .ok (getViewerPath sampleDV.dataset_name "train")
    ∧ fsGet (generateViewer sampleDV sampleLlmGen sampleFS "train" "" true).fs
          (getViewerPath sampleDV.dataset_name "train")
        = some (genContent sampleDV sampleLlmGen [("a", Value.int 1)] "train" "") :=
  ⟨rfl, rfl, rfl, by decide,
   (generate_viewer_force sampleDV sampleLlmGen sampleFS "train" ""
      [("train", [[("a", Value.int 1)]])] (.claude "k") [("a", Value.int 1)] []
      rfl rfl rfl (by decide)).1,
   (generate_viewer_force sampleDV sampleLlmGen sampleFS "train" ""
      [("train", [[("a", Value.int 1)]])] (.claude "k") [("a", Value.int 1)] []
      rfl rfl rfl (by decide)).2.2.2⟩

/-- C8: `generate_viewer` raises the missing-dataset error when no dataset
is loaded (whatever the model-client field holds), and the
missing-model-client error when a dataset is loaded but no client is
configured; in both cases the effect trace is empty — no model call, no
file read, no file write — and the state and filesystem are untouched. -/
theorem generate_viewer_preconditions (dv : DataViewer) (llmGen : String → String → String)
    (fs : FS) (split extra_prompt : String) (force : Bool) :
    (dv.data = none →
      generateViewer dv llmGen fs split extra_prompt force
        = { trace := [], result := .error (.valueError "No dataset loaded"),
            dv := dv, fs := fs })
    ∧ ∀ d, dv.data = some d → dv.llm = none →
      generateViewer dv llmGen fs split extra_prompt force
        = { trace := [], result := .error (.valueError "No language model configured"),
            dv := dv, fs := fs } := by
  constructor
  · intro h
    unfold generateViewer
    rw [h]
  · intro d h h'
    unfold generateViewer
    rw [h, h']

/-- Witness for C8: an unloaded state, and a loaded state with no client. -/
theorem generate_viewer_preconditions_witness :
    (({} : DataViewer).data = none
     ∧ generateViewer {} sampleLlmGen sampleFS "train" "" false
        = { trace := [], result := .error (.valueError "No dataset loaded"),
            dv := {}, fs := sampleFS })
    ∧ ({ data := some [], dataset_name := "ds" : DataViewer }.data = some []
       ∧ { data := some [], dataset_name := "ds" : DataViewer }.llm = none
       ∧ generateViewer { data := some [], dataset_name := "ds" } sampleLlmGen sampleFS "train" "" false
          = { trace := [], result := .error (.valueError "No language model configured"),
              dv := { data := some [], dataset_name := "ds" }, fs := sampleFS }) :=
  ⟨⟨rfl, (generate_viewer_preconditions {} sampleLlmGen sampleFS "train" "" false).1 rfl⟩,
   ⟨rfl, rfl,
    (generate_viewer_preconditions { data := some [], dataset_name := "ds" } sampleLlmGen
        sampleFS "train" "" false).2 [] rfl rfl⟩⟩

/-- C9: the precondition checks precede the cache check — even when the
artifact exists at the derived path and `force` is false, a missing dataset
or missing model client still raises its precondition error. -/
theorem generate_viewer_precondition_before_cache (dv : DataViewer)
    (llmGen : String → String → String) (fs : FS) (split extra_prompt : String)
    (hex : fsExists fs (getViewerPath dv.dataset_name split) = true) :
    (dv.data = none →
      (generateViewer dv llmGen fs split extra_prompt false).result
        = .error (.valueError "No dataset loaded"))
    ∧ ∀ d, dv.data = some d → dv.llm = none →
      (generateViewer dv llmGen fs split extra_prompt false).result
        = .error (.valueError "No language model configured") := by
  constructor
  · intro h
    unfold generateViewer
    rw [h]
  · intro d h h'
    unfold generateViewer
    rw [h, h']

/-- Witness for C9: the artifact exists, yet the precondition errors win. -/
theorem generate_viewer_precondition_before_cache_witness :
    fsExists sampleFS (getViewerPath ({ dataset_name := "ds" } : DataViewer).dataset_name "train") = true
    ∧ ({ dataset_name := "ds" } : DataViewer).data = none
    ∧ (generateViewer { dataset_name := "ds" } sampleLlmGen sampleFS "train" "" false).result
        = .error (.valueError "No dataset loaded")
    ∧ (generateViewer { data := some [], dataset_name := "ds" } sampleLlmGen sampleFS "train" "" false).result
        = .error (.valueError "No language model configured") :=
  ⟨by decide, rfl,
   (generate_viewer_precondition_before_cache { dataset_name := "ds" } sampleLlmGen sampleFS
      "train" "" (by decide)).1 rfl,
   (generate_viewer_precondition_before_cache { data := some [], dataset_name := "ds" }
      sampleLlmGen sampleFS "train" "" (by decide)).2 [] rfl rfl⟩

/-- C10: on a cache hit (artifact exists, `force` false), `generate_viewer`
writes no file and mutates nothing: the filesystem, the artifact content at
the derived path, and every field of the object state are unchanged. -/
theorem generate_viewer_cache_hit_frame (dv : DataViewer) (llmGen : String → String → String)
    (fs : FS) (split extra_prompt : String) (d : Dataset) (l : LLM)
    (hdata : dv.data = some d) (hllm : dv.llm = some l)
    (hex : fsExists fs (getViewerPath dv.dataset_name split) = true) :
    (generateViewer dv llmGen fs split extra_prompt false).fs = fs
    ∧ (∀ p c, Event.write p c ∉ (generateViewer dv llmGen fs split extra_prompt false).trace)
    ∧ (generateViewer dv llmGen fs split extra_prompt false).dv = dv
    ∧ fsGet (generateViewer dv llmGen fs split extra_prompt false).fs
          (getViewerPath dv.dataset_name split)
        = fsGet fs (getViewerPath dv.dataset_name split)
    ∧ (generateViewer dv llmGen fs split extra_prompt false).dv.data = dv.data
    ∧ (generateViewer dv llmGen fs split extra_prompt false).dv.dataset_name = dv.dataset_name
    ∧ (generateViewer dv llmGen fs split extra_prompt false).dv.llm = dv.llm
    ∧ (generateViewer dv llmGen fs split extra_prompt false).dv.progress_callback
        = dv.progress_callback := by
  unfold generateViewer
  rw [hdata, hllm]
  simp [hex, hdata, hllm]

/-- Witness for C10 at concrete state, filesystem and oracle. -/
theorem generate_viewer_cache_hit_frame_witness :
    sampleDV.data = some [("train", [[("a", Value.int 1)]])]
    ∧ sampleDV.llm = some (.claude "k")
    ∧ fsExists sampleFS (getViewerPath sampleDV.dataset_name "train") = true
    ∧ (generateViewer sampleDV sampleLlmGen sampleFS "train" "" false).fs = sampleFS
    ∧ Event.write "view_ds_train.py" "new" ∉
        (generateViewer sampleDV sampleLlmGen sampleFS "train" "" false).trace
    ∧ (generateViewer sampleDV sampleLlmGen sampleFS "train" "" false).dv = sampleDV :=
  ⟨rfl, rfl, by decide,
   (generate_viewer_cache_hit_frame sampleDV sampleLlmGen sampleFS "train" "" _ _
      rfl rfl (by decide)).1,
   (generate_viewer_cache_hit_frame sampleDV sampleLlmGen sampleFS "train" "" _ _
      rfl rfl (by decide)).2.1 "view_ds_train.py" "new",
   (generate_viewer_cache_hit_frame sampleDV sampleLlmGen sampleFS "train" "" _ _
      rfl rfl (by decide)).2.2.1⟩

/-- C6: backend selection depends only on which credential is truthy, the
Anthropic variant winning whenever its key is present (whatever the OpenAI
key holds); with neither credential present `from_environment` raises the
configuration `ValueError` and the CLI run produces no dataset-load step at
all. -/
theorem backend_selection (env : Env) (loader : String → Except PyError Dataset)
    (hubAvailable : Bool) (hubDownload : String → String → Except Unit String)
    (readText : String → Except Unit String) (llmGen : String → String → String)
    (fs : FS) (dataset_url split prompt : String) (force : Bool) :
    (pyTruthy env.anthropic_api_key = false → pyTruthy env.openai_api_key = false →
      fromEnvironment env = .error (.valueError
        "No API keys found. Please set either ANTHROPIC_API_KEY or OPENAI_API_KEY environment variable.")
      ∧ (cliMain env loader hubAvailable hubDownload readText llmGen fs
            dataset_url split prompt force).1 = []
      ∧ (∀ u, CliEvent.loadData u ∉
          (cliMain env loader hubAvailable hubDownload readText llmGen fs
              dataset_url split prompt force).1)
      ∧ (cliMain env loader hubAvailable hubDownload readText llmGen fs
            dataset_url split prompt force).2
          = .error
            "No API keys found. Please set either ANTHROPIC_API_KEY or OPENAI_API_KEY environment variable.")
    ∧ (∀ k, env.anthropic_api_key = some k → k ≠ "" →
        fromEnvironment env = .ok { llm := some (LLM.claude k) })
    ∧ (∀ k, pyTruthy env.anthropic_api_key = false → env.openai_api_key = some k → k ≠ "" →
        fromEnvironment env = .ok { llm := some (LLM.gpt4 k) }) := by
  refine ⟨fun h1 h2 => ?_, fun k hk hne => ?_, fun k h1 hk hne => ?_⟩
  · have hfe : fromEnvironment env = .error (.valueError
        "No API keys found. Please set either ANTHROPIC_API_KEY or OPENAI_API_KEY environment variable.") := by
      unfold fromEnvironment
      simp [h1, h2]
    refine ⟨hfe, ?_, ?_, ?_⟩
    all_goals
      unfold cliMain
      rw [hfe]
      try simp [clickMessage]
  · have htruthy : pyTruthy env.anthropic_api_key = true := by
      rw [hk]
      simpa [pyTruthy] using hne
    unfold fromEnvironment
    rw [hk] at htruthy ⊢
    simp [htruthy]
  · have htruthy : pyTruthy env.openai_api_key = true := by
      rw [hk]
      simpa [pyTruthy] using hne
    unfold fromEnvironment
    rw [hk] at htruthy ⊢
    simp [h1, htruthy]

/-- Witness for C6: both keys set picks Claude; empty-string and unset keys
count as absent and fail before any load. -/
theorem backend_selection_witness :
    pyTruthy (Env.mk none (some "")).anthropic_api_key = false
    ∧ pyTruthy (Env.mk none (some "")).openai_api_key = false
    ∧ fromEnvironment (Env.mk none (some "")) = .error (.valueError
        "No API keys found. Please set either ANTHROPIC_API_KEY or OPENAI_API_KEY environment variable.")
    ∧ (cliMain (Env.mk none (some "")) (fun _ => .ok []) true (fun _ _ => .error ())
          (fun _ => .error ()) sampleLlmGen [] "mnist" "train" "" false).1 = []
    ∧ fromEnvironment (Env.mk (some "a") (some "b")) = .ok { llm := some (LLM.claude "a") }
    ∧ fromEnvironment (Env.mk (some "") (some "b")) = .ok { llm := some (LLM.gpt4 "b") } :=
  ⟨rfl, by decide,
   ((backend_selection (Env.mk none (some "")) (fun _ => .ok []) true (fun _ _ => .error ())
      (fun _ => .error ()) sampleLlmGen [] "mnist" "train" "" false).1 rfl (by decide)).1,
   ((backend_selection (Env.mk none (some "")) (fun _ => .ok []) true (fun _ _ => .error ())
      (fun _ => .error ()) sampleLlmGen [] "mnist" "train" "" false).1 rfl (by decide)).2.1,
   (backend_selection (Env.mk (some "a") (some "b")) (fun _ => .ok []) true (fun _ _ => .error ())
      (fun _ => .error ()) sampleLlmGen [] "mnist" "train" "" false).2.1 "a" rfl (by decide),
   (backend_selection (Env.mk (some "") (some "b")) (fun _ => .ok []) true (fun _ _ => .error ())
      (fun _ => .error ()) sampleLlmGen [] "mnist" "train" "" false).2.2 "b" (by decide) rfl
      (by decide)⟩

/-- C7: `load_dataset` fetches documentation best-effort — `README.md` is
tried first, `dataset_card.md` second; every failure of either download,
of the read, or of the containing step leaves the documentation as `none`
and the load still completes. -/
theorem load_dataset_doc_fetch (dv : DataViewer) (loader : String → Except PyError Dataset)
    (hubDownload : String → String → Except Unit String)
    (readText : String → Except Unit String) (dataset_url : String) (ds : Dataset)
    (hload : loader dataset_url = .ok ds) :
    (loadDatasetOp dv loader true hubDownload readText dataset_url
       = .ok { dv with
                dataset_name := dataset_url
                data := some ds
                dataset_readme := fetchReadme true hubDownload readText dataset_url })
    ∧ (loadDatasetOp dv loader false hubDownload readText dataset_url
       = .ok { dv with
                dataset_name := dataset_url
                data := some ds
                dataset_readme := none })
    ∧ (hubDownload dataset_url "README.md" = .error () →
       hubDownload dataset_url "dataset_card.md" = .error () →
        fetchReadme true hubDownload readText dataset_url = none)
    ∧ (∀ p, hubDownload dataset_url "README.md" = .ok p → p ≠ "" →
        readText p = .error () →
        fetchReadme true hubDownload readText dataset_url = none)
    ∧ (∀ p t, hubDownload dataset_url "README.md" = .error () →
        hubDownload dataset_url "dataset_card.md" = .ok p → p ≠ "" → readText p = .ok t →
        fetchReadme true hubDownload readText dataset_url = some t)
    ∧ (∀ p t (hub' : String → String → Except Unit String),
        hubDownload dataset_url "README.md" = .ok p → p ≠ "" → readText p = .ok t →
        hub' dataset_url "README.md" = .ok p →
        fetchReadme true hub' readText dataset_url = some t) := by
  refine ⟨?_, ?_, fun hr hc => ?_, fun p hr hp hrd => ?_, fun p t hr hc hp hrd => ?_,
    fun p t hub' hr hp hrd hr' => ?_⟩
  · unfold loadDatasetOp
    rw [hload]
  · unfold loadDatasetOp
    rw [hload]
    simp [fetchReadme]
  · unfold fetchReadme
    simp [hr, hc]
  · unfold fetchReadme
    simp [hr, hp, hrd]
  · unfold fetchReadme
    simp [hr, hc, hp, hrd]
  · unfold fetchReadme
    simp [hr', hp, hrd]

/-- Witness for C7: a loader that succeeds, downloads that both fail (doc
recorded absent, load completes), and a download whose read succeeds. -/
theorem load_dataset_doc_fetch_witness :
    ((fun _ => .ok [("train", [])] : String → Except PyError Dataset) "mnist"
        = .ok [("train", [])])
    ∧ loadDatasetOp {} (fun _ => .ok [("train", [])]) true (fun _ _ => .error ())
        (fun _ => .error ()) "mnist"
      = .ok { dataset_name := "mnist"
              data := some [("train", [])]
              dataset_readme := fetchReadme true (fun _ _ => .error ()) (fun _ => .error ()) "mnist" }
    ∧ fetchReadme true (fun _ _ => .error ()) (fun _ => .error ()) "mnist" = none
    ∧ fetchReadme true (fun _ f => if f = "README.md" then .ok "/tmp/readme" else .error ())
        (fun _ => .ok "DOC") "mnist" = some "DOC" :=
  ⟨rfl,
   (load_dataset_doc_fetch {} (fun _ => .ok [("train", [])]) (fun _ _ => .error ())
      (fun _ => .error ()) "mnist" [("train", [])] rfl).1,
   (load_dataset_doc_fetch {} (fun _ => .ok [("train", [])]) (fun _ _ => .error ())
      (fun _ => .error ()) "mnist" [("train", [])] rfl).2.2.1 rfl rfl,
   (load_dataset_doc_fetch {} (fun _ => .ok [("train", [])])
      (fun _ f => if f = "README.md" then .ok "/tmp/readme" else .error ())
      (fun _ => .ok "DOC") "mnist" [("train", [])] rfl).2.2.2.2.2 "/tmp/readme" "DOC"
      (fun _ f => if f = "README.md" then .ok "/tmp/readme" else .error ())
      rfl (by decide) rfl rfl⟩

end Dataviewer
